import Mathlib

/-!
Shallow embedding of `src/lib.rs` of the shopify-rust-api repository.

The Rust code defines:
* an enum `ShopifyAPIVersion` of supported API versions;
* `get_end_of_support_date`, mapping each version to a fixed UTC
  `chrono::DateTime` (embedded here as seconds since the Unix epoch);
* `is_deprecated`, comparing `chrono::Utc::now()` to the end-of-support
  date (the clock is an explicit parameter in the embedding);
* `api_version_to_string`, mapping each version to its tag;
* a struct `Shopify` with a constructor `new`, an accessor `get_shop`
  and a fallible setter `set_api_key`.
-/

namespace ShopifyApi

/-- Number of leap years in the range 1..n of the proleptic Gregorian
calendar. -/
def leapYearsThrough (n : Nat) : Nat :=
  n / 4 - n / 100 + n / 400

/-- Whether a year is a Gregorian leap year. -/
def isLeapYear (y : Nat) : Bool :=
  (y % 4 == 0 && y % 100 != 0) || y % 400 == 0

/-- Number of days in month `m` (1-12) of year `y`. -/
def daysInMonth (y m : Nat) : Nat :=
  match m with
  | 2 => if isLeapYear y then 29 else 28
  | 4 => 30
  | 6 => 30
  | 9 => 30
  | 11 => 30
  | _ => 31

/-- Number of days in year `y` before the first day of month `m`. -/
def daysBeforeMonth (y : Nat) : Nat → Nat
  | 0 => 0
  | 1 => 0
  | n + 1 => daysBeforeMonth y n + daysInMonth y n

/-- Number of days from 1970-01-01 to the civil date `y-m-d`
(valid for `y ≥ 1970`). -/
def daysFromCivil (y m d : Nat) : Nat :=
  365 * (y - 1970) + (leapYearsThrough (y - 1) - leapYearsThrough 1969)
    + daysBeforeMonth y m + (d - 1)

/-- Embedding of `chrono::Utc.ymd(y, m, d).and_hms(h, mi, s)`: the UTC
instant as seconds since the Unix epoch (an `Int`, as chrono timestamps
are signed). -/
def utcTimestamp (y m d h mi s : Nat) : Int :=
  ((daysFromCivil y m d * 86400 + h * 3600 + mi * 60 + s : Nat) : Int)

/-- Embedding of the Rust enum `ShopifyAPIVersion`. -/
inductive ShopifyAPIVersion where
  | V2021_10
  | V2022_01
  | V2022_04
  | V2022_07
  | V2022_10
  | V2023_01
  | Unstable
  deriving DecidableEq, Fintype, Repr

/-- Position of a version in the declaration order of the Rust enum. -/
def declIndex : ShopifyAPIVersion → Nat
  | .V2021_10 => 0
  | .V2022_01 => 1
  | .V2022_04 => 2
  | .V2022_07 => 3
  | .V2022_10 => 4
  | .V2023_01 => 5
  | .Unstable => 6

/-- Embedding of `get_end_of_support_date`: one match arm per enum
member, exactly as in the source. -/
def get_end_of_support_date : ShopifyAPIVersion → Int
  | .V2021_10 => utcTimestamp 2021 10 31 23 59 59
  | .V2022_01 => utcTimestamp 2022 1 31 23 59 59
  | .V2022_04 => utcTimestamp 2022 4 30 23 59 59
  | .V2022_07 => utcTimestamp 2022 7 31 23 59 59
  | .V2022_10 => utcTimestamp 2022 10 31 23 59 59
  | .V2023_01 => utcTimestamp 2023 1 31 23 59 59
  | .Unstable => utcTimestamp 9999 12 31 23 59 59

/-- Embedding of `is_deprecated`. The Rust code reads the wall clock
via `chrono::Utc::now()`; here the clock value is an explicit
parameter `now`. -/
def is_deprecated (now : Int) (api_version : ShopifyAPIVersion) : Bool :=
  let max_date := get_end_of_support_date api_version
  decide (now > max_date)

/-- Embedding of `api_version_to_string`. -/
def api_version_to_string : ShopifyAPIVersion → String
  | .V2021_10 => "2021-10"
  | .V2022_01 => "2022-01"
  | .V2022_04 => "2022-04"
  | .V2022_07 => "2022-07"
  | .V2022_10 => "2022-10"
  | .V2023_01 => "2023-01"
  | .Unstable => "unstable"

/-- Embedding of the Rust struct `Shopify`. -/
structure Shopify where
  shared_secret : Option String
  api_key : String
  query_url : String
  rest_url : String
  shop : String
  deriving DecidableEq, Repr

/-- Embedding of `Shopify::new`: `format!` interpolation of the shop
identifier into the two fixed URL templates. -/
def Shopify.new (shop api_key : String) (shared_secret : Option String) :
    Shopify :=
  let query_url := "https://" ++ shop ++ "/admin/api/2020-04/graphql.json"
  let rest_url := "https://" ++ shop ++ "/admin/api/2020-04/"
  { shared_secret := shared_secret
    api_key := api_key
    query_url := query_url
    rest_url := rest_url
    shop := shop }

/-- Embedding of `Shopify::get_shop`. -/
def Shopify.get_shop (s : Shopify) : String :=
  s.shop

/-- Embedding of `Shopify::set_api_key`: returns either the error
string or the mutated descriptor (Rust returns `Ok(self)`, a reference
to the mutated value). -/
def Shopify.set_api_key (s : Shopify) (api_key : String) :
    Except String Shopify :=
  if api_key.isEmpty then
    Except.error "API key cannot be empty"
  else
    Except.ok { s with api_key := api_key }

/-- The state of the descriptor after a `set_api_key` call: on success
the mutated value, on failure the receiver is untouched (Rust's `&mut
self` early-returns before any write). -/
def Shopify.set_api_key_state (s : Shopify) (api_key : String) : Shopify :=
  match s.set_api_key api_key with
  | Except.ok s' => s'
  | Except.error _ => s

/-- The descriptor after a whole sequence of `set_api_key` calls, one
per list element. -/
def applyKeys (s : Shopify) : List String → Shopify
  | [] => s
  | k :: ks => applyKeys (s.set_api_key_state k) ks

/-- Unfolding lemma for `set_api_key_state`. -/
theorem set_api_key_state_eq (s : Shopify) (k : String) :
    s.set_api_key_state k = if k.isEmpty then s else { s with api_key := k } := by
  unfold Shopify.set_api_key_state Shopify.set_api_key
  by_cases h : k.isEmpty <;> simp [h]

/-- A `set_api_key` call, succeeding or failing, changes no field other
than the API key. -/
theorem set_api_key_state_frame (s : Shopify) (k : String) :
    (s.set_api_key_state k).shop = s.shop ∧
    (s.set_api_key_state k).shared_secret = s.shared_secret ∧
    (s.set_api_key_state k).query_url = s.query_url ∧
    (s.set_api_key_state k).rest_url = s.rest_url := by
  rw [set_api_key_state_eq]
  by_cases h : k.isEmpty <;> simp [h]

/-- A whole sequence of `set_api_key` calls changes no field other than
the API key. -/
theorem applyKeys_frame (ks : List String) (s : Shopify) :
    (applyKeys s ks).shop = s.shop ∧
    (applyKeys s ks).shared_secret = s.shared_secret ∧
    (applyKeys s ks).query_url = s.query_url ∧
    (applyKeys s ks).rest_url = s.rest_url := by
  induction ks generalizing s with
  | nil => exact ⟨rfl, rfl, rfl, rfl⟩
  | cons k ks ih =>
    have e : applyKeys s (k :: ks) = applyKeys (s.set_api_key_state k) ks := rfl
    rw [e]
    obtain ⟨h1, h2, h3, h4⟩ := ih (s.set_api_key_state k)
    obtain ⟨g1, g2, g3, g4⟩ := set_api_key_state_frame s k
    exact ⟨h1.trans g1, h2.trans g2, h3.trans g3, h4.trans g4⟩

/-- Claim C1: for every version `v` and every clock value `now`,
`is_deprecated now v` is true iff `now` is strictly after
`get_end_of_support_date v`; for `Unstable`, whose sentinel
end-of-support is 9999-12-31T23:59:59Z, it is false at every clock
value not after that sentinel, hence at every realistic clock value. -/
theorem c1_is_deprecated_iff_past_end_of_support
    (v : ShopifyAPIVersion) (now : Int) :
    (is_deprecated now v = true ↔ get_end_of_support_date v < now) ∧
    (now ≤ get_end_of_support_date ShopifyAPIVersion.Unstable →
      is_deprecated now ShopifyAPIVersion.Unstable = false) := by
  constructor
  · simp [is_deprecated]
  · intro h
    simp [is_deprecated]
    omega

/-- Witness for C1: at the clock value 2026-10-12T00:00:00Z the
`Unstable` version is not deprecated. -/
theorem c1_witness_unstable_not_deprecated :
    is_deprecated (utcTimestamp 2026 10 12 0 0 0)
      ShopifyAPIVersion.Unstable = false :=
  (c1_is_deprecated_iff_past_end_of_support ShopifyAPIVersion.Unstable
    (utcTimestamp 2026 10 12 0 0 0)).2 (by decide)

/-- Claim C2: `get_end_of_support_date` maps every released member with
tag year Y, month M to the UTC instant 23:59:59 on the last day of
month M of year Y, and maps `Unstable` to the sentinel
9999-12-31T23:59:59Z. -/
theorem c2_end_of_support_last_instant_of_month :
    get_end_of_support_date ShopifyAPIVersion.V2021_10 =
      utcTimestamp 2021 10 (daysInMonth 2021 10) 23 59 59 ∧
    get_end_of_support_date ShopifyAPIVersion.V2022_01 =
      utcTimestamp 2022 1 (daysInMonth 2022 1) 23 59 59 ∧
    get_end_of_support_date ShopifyAPIVersion.V2022_04 =
      utcTimestamp 2022 4 (daysInMonth 2022 4) 23 59 59 ∧
    get_end_of_support_date ShopifyAPIVersion.V2022_07 =
      utcTimestamp 2022 7 (daysInMonth 2022 7) 23 59 59 ∧
    get_end_of_support_date ShopifyAPIVersion.V2022_10 =
      utcTimestamp 2022 10 (daysInMonth 2022 10) 23 59 59 ∧
    get_end_of_support_date ShopifyAPIVersion.V2023_01 =
      utcTimestamp 2023 1 (daysInMonth 2023 1) 23 59 59 ∧
    get_end_of_support_date ShopifyAPIVersion.Unstable =
      utcTimestamp 9999 12 31 23 59 59 := by
  decide

/-- Claim C3: `set_api_key` fails iff the new key is the empty string;
on failure the descriptor is unchanged; on success it returns the
mutated descriptor, whose stored key is the new key. -/
theorem c3_set_api_key_validation (s : Shopify) (k : String) :
    (k = "" → s.set_api_key k = Except.error "API key cannot be empty" ∧
      s.set_api_key_state k = s) ∧
    (k ≠ "" → s.set_api_key k = Except.ok { s with api_key := k } ∧
      s.set_api_key_state k = { s with api_key := k } ∧
      (s.set_api_key_state k).api_key = k) := by
  constructor
  · intro h; subst h; exact ⟨rfl, rfl⟩
  · intro h
    have hk : k.isEmpty = false := by
      cases hh : k.isEmpty with
      | false => rfl
      | true => exact absurd ((String.isEmpty_iff k).mp hh) h
    refine ⟨?_, ?_, ?_⟩
    · simp [Shopify.set_api_key, hk]
    · rw [set_api_key_state_eq, hk]; simp
    · rw [set_api_key_state_eq, hk]; simp

/-- Witness for C3: on a concrete descriptor, the empty key is rejected
and a non-empty key replaces the stored key. -/
theorem c3_witness_empty_rejected_nonempty_replaces :
    (Shopify.new "my-shop" "old-key" none).set_api_key "" =
      Except.error "API key cannot be empty" ∧
    (Shopify.new "my-shop" "old-key" none).set_api_key "new-key" =
      Except.ok
        { Shopify.new "my-shop" "old-key" none with api_key := "new-key" } :=
  ⟨((c3_set_api_key_validation (Shopify.new "my-shop" "old-key" none) "").1
      rfl).1,
   ((c3_set_api_key_validation (Shopify.new "my-shop" "old-key" none)
      "new-key").2 (by decide)).1⟩

/-- Claim C4: for every shop string, the constructor builds the query
URL as https:// ++ shop ++ /admin/api/2020-04/graphql.json and the REST
base URL as https:// ++ shop ++ /admin/api/2020-04/ ; in particular for
shop "my-shop" the two literal URLs of the claim result. -/
theorem c4_constructor_urls (shop api_key : String) (sec : Option String) :
    (Shopify.new shop api_key sec).query_url =
      "https://" ++ shop ++ "/admin/api/2020-04/graphql.json" ∧
    (Shopify.new shop api_key sec).rest_url =
      "https://" ++ shop ++ "/admin/api/2020-04/" ∧
    (Shopify.new "my-shop" "key" none).query_url =
      "https://my-shop/admin/api/2020-04/graphql.json" ∧
    (Shopify.new "my-shop" "key" none).rest_url =
      "https://my-shop/admin/api/2020-04/" :=
  ⟨rfl, rfl, by decide, by decide⟩

/-- Claim C5: `api_version_to_string` returns a non-empty tag for every
member, is injective, maps `Unstable` to "unstable" and each released
member to its canonical YYYY-MM tag. -/
theorem c5_version_to_string_tags :
    (∀ v : ShopifyAPIVersion, api_version_to_string v ≠ "") ∧
    (∀ a b : ShopifyAPIVersion,
      api_version_to_string a = api_version_to_string b → a = b) ∧
    api_version_to_string ShopifyAPIVersion.Unstable = "unstable" ∧
    api_version_to_string ShopifyAPIVersion.V2021_10 = "2021-10" ∧
    api_version_to_string ShopifyAPIVersion.V2022_01 = "2022-01" ∧
    api_version_to_string ShopifyAPIVersion.V2022_04 = "2022-04" ∧
    api_version_to_string ShopifyAPIVersion.V2022_07 = "2022-07" ∧
    api_version_to_string ShopifyAPIVersion.V2022_10 = "2022-10" ∧
    api_version_to_string ShopifyAPIVersion.V2023_01 = "2023-01" := by
  decide

/-- Witness for C5: injectivity applied at a concrete pair of versions
with equal tags. -/
theorem c5_witness_injective_at_point :
    ShopifyAPIVersion.V2022_07 = ShopifyAPIVersion.V2022_07 :=
  c5_version_to_string_tags.2.1 ShopifyAPIVersion.V2022_07
    ShopifyAPIVersion.V2022_07 rfl

/-- Claim C6: `get_shop` returns exactly the shop string passed at
construction, unchanged after any sequence of `set_api_key` calls,
succeeding or failing. -/
theorem c6_get_shop_stable (shop api_key : String) (sec : Option String)
    (ks : List String) :
    (applyKeys (Shopify.new shop api_key sec) ks).get_shop = shop := by
  have h := (applyKeys_frame ks (Shopify.new shop api_key sec)).1
  simpa [Shopify.get_shop, Shopify.new] using h

/-- Claim C7: the constructor is total and performs no validation — it
accepts arbitrary (including empty) strings and stores them verbatim —
while `set_api_key` is the sole operation with an error condition,
erring exactly on the empty key.  `get_shop`,
`get_end_of_support_date`, `is_deprecated` and `api_version_to_string`
are plain total functions with no error codomain. -/
theorem c7_constructor_total_setter_sole_error
    (shop api_key : String) (sec : Option String) :
    ((Shopify.new shop api_key sec).shop = shop ∧
     (Shopify.new shop api_key sec).api_key = api_key ∧
     (Shopify.new shop api_key sec).shared_secret = sec) ∧
    ((Shopify.new "" "" none).shop = "" ∧
     (Shopify.new "" "" none).api_key = "") ∧
    (∀ (s : Shopify) (k : String),
      (∃ e, s.set_api_key k = Except.error e) ↔ k = "") := by
  refine ⟨⟨rfl, rfl, rfl⟩, ⟨rfl, rfl⟩, ?_⟩
  intro s k
  constructor
  · rintro ⟨e, he⟩
    cases h : k.isEmpty with
    | true => exact (String.isEmpty_iff k).mp h
    | false => simp [Shopify.set_api_key, h] at he
  · intro h; subst h; exact ⟨"API key cannot be empty", rfl⟩

/-- Witness for C7: on a concrete descriptor, setting the empty key
produces an error. -/
theorem c7_witness_empty_key_error :
    ∃ e, (Shopify.new "shop" "key" none).set_api_key "" =
      Except.error e :=
  ((c7_constructor_total_setter_sole_error "shop" "key" none).2.2
    (Shopify.new "shop" "key" none) "").mpr rfl

/-- Claim C8: only the API key is mutable — a `set_api_key` call,
succeeding or failing, leaves shop, shared secret, query URL and REST
URL unchanged, both in the resulting state and in the descriptor
returned on success. -/
theorem c8_set_api_key_only_mutates_key (s : Shopify) (k : String) :
    (s.set_api_key_state k).shop = s.shop ∧
    (s.set_api_key_state k).shared_secret = s.shared_secret ∧
    (s.set_api_key_state k).query_url = s.query_url ∧
    (s.set_api_key_state k).rest_url = s.rest_url ∧
    (∀ s', s.set_api_key k = Except.ok s' →
      s'.shop = s.shop ∧ s'.shared_secret = s.shared_secret ∧
      s'.query_url = s.query_url ∧ s'.rest_url = s.rest_url) := by
  obtain ⟨g1, g2, g3, g4⟩ := set_api_key_state_frame s k
  refine ⟨g1, g2, g3, g4, ?_⟩
  intro s' h
  by_cases hk : k.isEmpty
  · simp [Shopify.set_api_key, hk] at h
  · simp [Shopify.set_api_key, hk] at h
    rw [← h]
    exact ⟨rfl, rfl, rfl, rfl⟩

/-- Witness for C8: on a concrete descriptor, a successful key update
leaves the query URL unchanged. -/
theorem c8_witness_ok_preserves_query_url :
    ({ Shopify.new "my-shop" "k1" (some "sec") with api_key := "k2" }
        : Shopify).query_url =
      (Shopify.new "my-shop" "k1" (some "sec")).query_url :=
  ((c8_set_api_key_only_mutates_key
      (Shopify.new "my-shop" "k1" (some "sec")) "k2").2.2.2.2
    { Shopify.new "my-shop" "k1" (some "sec") with api_key := "k2" }
    rfl).2.2.1

/-- Claim C9: invariant of every reachable descriptor (constructed,
then any sequence of `set_api_key` calls): the query URL equals the
REST base URL with "graphql.json" appended. -/
theorem c9_query_url_eq_rest_url_append
    (shop api_key : String) (sec : Option String) (ks : List String) :
    (applyKeys (Shopify.new shop api_key sec) ks).query_url =
      (applyKeys (Shopify.new shop api_key sec) ks).rest_url ++
        "graphql.json" := by
  obtain ⟨-, -, h3, h4⟩ := applyKeys_frame ks (Shopify.new shop api_key sec)
  rw [h3, h4]
  show "https://" ++ shop ++ "/admin/api/2020-04/graphql.json" =
    ("https://" ++ shop ++ "/admin/api/2020-04/") ++ "graphql.json"
  rw [String.append_assoc, String.append_assoc, String.append_assoc]
  have e : ("/admin/api/2020-04/" ++ "graphql.json" : String) =
      "/admin/api/2020-04/graphql.json" := by decide
  rw [e]

/-- Claim C10: end-of-support instants are strictly increasing along
the declaration order of the enum, so `Unstable` has the greatest
instant and whenever a later-declared version is deprecated at a clock
value, every earlier-declared version is deprecated there too. -/
theorem c10_end_of_support_monotone :
    (∀ a b : ShopifyAPIVersion, declIndex a < declIndex b →
      get_end_of_support_date a < get_end_of_support_date b) ∧
    (∀ (a b : ShopifyAPIVersion) (now : Int), declIndex a ≤ declIndex b →
      is_deprecated now b = true → is_deprecated now a = true) := by
  have hle : ∀ a b : ShopifyAPIVersion, declIndex a ≤ declIndex b →
      get_end_of_support_date a ≤ get_end_of_support_date b := by decide
  refine ⟨by decide, ?_⟩
  intro a b now hab hdep
  simp [is_deprecated] at hdep ⊢
  exact lt_of_le_of_lt (hle a b hab) hdep

/-- Witness for C10: at the clock value 2022-06-01T00:00:00Z, version
2022-01 is deprecated, hence so is the earlier-declared 2021-10. -/
theorem c10_witness_earlier_deprecated :
    is_deprecated (utcTimestamp 2022 6 1 0 0 0)
      ShopifyAPIVersion.V2021_10 = true :=
  c10_end_of_support_monotone.2 ShopifyAPIVersion.V2021_10
    ShopifyAPIVersion.V2022_01 (utcTimestamp 2022 6 1 0 0 0)
    (by decide) (by decide)

end ShopifyApi
